import Mathlib

/-!
Shallow embedding of `src/init_script.py` (repository `the1nP/cs333init_script`).

The script is a linear sequence of provisioning steps.  Each step shells out
to external commands via `subprocess.run(..., check=True)`, logs messages
through a `log_message` helper, and catches `CalledProcessError` (and any
other exception) by logging an error and returning `False`.  The `__main__`
block runs the steps in a fixed order and calls `sys.exit(1)` after the first
step that returns `False`.

The embedding models a run as a trace of observable events (`Event`):
external command invocations, log records, file writes, `print` output and
the two `os` filesystem calls.  The outside world is an oracle (`Sys`):
 * `fails args` — whether `subprocess.run(args, check=True)` raises
   `CalledProcessError`;
 * `pathExists p` — the result of `os.path.exists p`, with paths queried
   exactly as the strings the source passes.
The module-level configuration constants (source lines 11-22) are computed
once from the process environment into a `Config` record.

The source's `try/except` blocks have two tiers: a specific
`except subprocess.CalledProcessError`, and a generic `except Exception`
reachable through `open()`, the file `write`, `os.makedirs` and `os.chdir`.
The primary step functions model the command tier; the refined `_exn` step
functions interpret the very same bodies under an additional oracle
(`ExnOracle.opRaises`) that lets file and filesystem operations raise, and
model both tiers.  When no operation raises, the refined functions coincide
with the primary ones (`aux_exn_model_conservative`).
-/

/-- Observable events of a run of the script, in program order. -/
inductive Event where
  | cmd (args : List String)
  | log (level : Nat) (msg : String)
  | write (path : String) (content : String)
  | printOut (s : String)
  | fsop (op : String) (arg : String)
deriving DecidableEq

/-- The world the script runs against: which external commands fail and
which paths exist.  `fails` is queried with the exact argument vector the
source passes to `subprocess.run`; `pathExists` with the exact string passed
to `os.path.exists`. -/
structure Sys where
  fails : List String → Bool
  pathExists : String → Bool

/-- Python `logging.INFO`. -/
def logging_INFO : Nat := 20

/-- Python `logging.WARNING`. -/
def logging_WARNING : Nat := 30

/-- Python `logging.ERROR`. -/
def logging_ERROR : Nat := 40

/-- Python `logging.DEBUG`. -/
def logging_DEBUG : Nat := 10

/-- Python `logging.CRITICAL`. -/
def logging_CRITICAL : Nat := 50

/-- The two handlers installed by `logging.basicConfig` (source lines 25-32):
a `FileHandler` on `/var/log/init_tooltrack.log` and a `StreamHandler` on
standard output. -/
def logHandlers : List String := ["/var/log/init_tooltrack.log", "stdout"]

/-- Whether a handler installed by `logging.basicConfig(level=logging.INFO, ...)`
receives a record logged at level `lvl`: every configured handler receives
every record at level `logging.INFO` (20) or above. -/
def handlerReceives (h : String) (lvl : Nat) : Bool :=
  logHandlers.contains h && decide (logging_INFO ≤ lvl)

/-- `log_message` (source lines 65-72): dispatches to `logging.info` /
`logging.error` / `logging.warning` on those three exact levels and silently
does nothing on every other level.  The Python default argument is
`level=logging.INFO`. -/
def log_message (message : String) (level : Nat := logging_INFO) : List Event :=
  if level = logging_INFO then [Event.log logging_INFO message]
  else if level = logging_ERROR then [Event.log logging_ERROR message]
  else if level = logging_WARNING then [Event.log logging_WARNING message]
  else []

/-- Rendering of `str(e)` for a `subprocess.CalledProcessError` raised by
`subprocess.run(args, check=True)`.  The exact Python text also carries the
numeric exit status, which the oracle does not model; all the claims need is
that the logged error message is derived from the failing command. -/
def cpe_str (args : List String) : String :=
  "Command " ++ toString args ++ " returned non-zero exit status."

/-- Python `os.environ.get(key, default)` / `os.getenv(key, default)`. -/
def getenv (env : String → Option String) (key dflt : String) : String :=
  (env key).getD dflt

/-- Rendering of an optional environment value inside an f-string:
Python formats `None` as the string `"None"` (used for `os.getenv("USER")`
at source line 102, which has no default). -/
def pyNoneStr : Option String → String
  | none => "None"
  | some s => s

/-- Python `os.path.join` on two components (POSIX flavour, as used by the
script: no drive letters, separator `/`). -/
def ospath_join (a b : String) : String :=
  if b.toList.head? = some '/' then b
  else if a = "" then b
  else if a.toList.getLast? = some '/' then a ++ b
  else a ++ "/" ++ b

/-- Characters stripped by Python `int(str)` around the literal
(ASCII whitespace; the unicode spaces Python also accepts are not modelled). -/
def isPySpace (c : Char) : Bool :=
  c = ' ' || c = '\t' || c = '\n' || c = '\x0d' || c = '\x0b' || c = '\x0c'

/-- Strip leading and trailing whitespace, as Python `int(str)` does. -/
def stripPySpaces (l : List Char) : List Char :=
  ((l.dropWhile isPySpace).reverse.dropWhile isPySpace).reverse

/-- Digit run with optional single underscores between digits, as accepted
inside a Python integer literal string (no leading, trailing or doubled
underscore). -/
def digitsUnders : List Char → Bool
  | [] => false
  | [c] => c.isDigit
  | c :: d :: rest =>
    if c.isDigit then digitsUnders (d :: rest)
    else if c = '_' then d.isDigit && digitsUnders (d :: rest)
    else false

/-- The unsigned part of a Python integer literal string: nonempty, starts
with a digit, digits with single internal underscores. -/
def pyIntBody (l : List Char) : Bool :=
  match l with
  | [] => false
  | c :: _ => c.isDigit && digitsUnders l

/-- Whether Python `int(s)` succeeds (base 10): optional surrounding
whitespace, optional single sign, then a digit run with optional single
internal underscores.  (Unicode digits, which CPython also accepts, are not
modelled.) -/
def pythonIntValid (s : String) : Bool :=
  match stripPySpaces s.toList with
  | '+' :: rest => pyIntBody rest
  | '-' :: rest => pyIntBody rest
  | l => pyIntBody l

/-- Numeric value of a digit-and-underscore run. -/
def digitsVal (l : List Char) : Nat :=
  l.foldl (fun a c => if c = '_' then a else a * 10 + (c.toNat - 48)) 0

/-- Python `int(s)`: `some` of the parsed value when the string is a valid
base-10 integer literal, `none` when `int` would raise `ValueError`. -/
def pythonParseInt (s : String) : Option Int :=
  match stripPySpaces s.toList with
  | '+' :: rest => if pyIntBody rest then some (Int.ofNat (digitsVal rest)) else none
  | '-' :: rest => if pyIntBody rest then some (-(Int.ofNat (digitsVal rest))) else none
  | l => if pyIntBody l then some (Int.ofNat (digitsVal l)) else none

/-- The module-level configuration constants of the script
(source lines 11-22), plus the rendering of `os.getenv("USER")` used in the
`chown` invocation at source line 102 (looked up at call time in the source;
constant here because the process environment does not change during a run). -/
structure Config where
  PROJECT_NAME : String
  BASE_DIR : String
  PROJECT_DIR : String
  VENV_DIR : String
  VENV_PIP : String
  VENV_ACTIVATE : String
  GUNICORN_BIN : String
  DOMAIN_NAME : String
  APP_PORT : Int
  USER : String
deriving DecidableEq

/-- Computation of the module constants from the environment
(source lines 11-22 and the `os.getenv("USER")` at line 102).  The
`.getD 0` arm of `APP_PORT` is unreachable from `runScript`, which rejects
an invalid `APP_PORT` string first, exactly as `int(...)` at line 22 raises
before anything else runs. -/
def mkConfig (env : String → Option String) : Config :=
  let projectName := getenv env "PROJECT_NAME" "cs333_FinalProject"
  let baseDir := getenv env "PROJECT_BASE_DIR" "/srv"
  let projectDir := ospath_join baseDir projectName
  let venvDir := ospath_join projectDir "venv"
  ⟨projectName, baseDir, projectDir, venvDir,
    ospath_join (ospath_join venvDir "bin") "pip",
    ospath_join (ospath_join venvDir "bin") "activate",
    ospath_join (ospath_join venvDir "bin") "gunicorn",
    getenv env "DOMAIN_NAME" "2tooltrack.m3chok.com",
    (pythonParseInt (getenv env "APP_PORT" "8000")).getD 0,
    pyNoneStr (env "USER")⟩

/-- Run the body of a `try` block: events are emitted in order; the first
command the oracle fails on raises `CalledProcessError`, cutting the body
short and reporting the failing command. -/
def runBody (f : List String → Bool) : List Event → List Event × Option (List String)
  | [] => ([], none)
  | Event.cmd a :: rest =>
    if f a then ([Event.cmd a], some a)
    else
      let r := runBody f rest
      (Event.cmd a :: r.1, r.2)
  | e :: rest =>
    let r := runBody f rest
    (e :: r.1, r.2)

/-- The step wrapper of the primary model: run the `try` body; on success
return `True`, on a `CalledProcessError` log the step's error message at
`logging.ERROR` and return `False`.  This models the first `except` tier
only; `runStepExn` below refines it with the source's second
`except Exception` tier. -/
def runStep (f : List String → Bool) (body : List Event) (failMsg : List String → String) :
    List Event × Bool :=
  match runBody f body with
  | (evs, none) => (evs, true)
  | (evs, some a) => (evs ++ log_message (failMsg a) logging_ERROR, false)

/-- The repository URL hard-coded at source line 105. -/
def repo_url : String := "https://github.com/pakin6509681182/cs333_FinalProject.git"

/-- `apache_conf_dir` (source line 146). -/
def apache_conf_dir : String := "/etc/apache2/sites-available"

/-- The `a2dissite` invocation whose failure is caught by the inner
`try/except` at source lines 168-171. -/
def a2dissite_cmd : List String := ["sudo", "a2dissite", "000-default.conf"]

/-- The `try` body of `install_prerequisites` (source lines 76-84). -/
def prereq_body : List Event :=
  log_message "Updating package lists"
  ++ [Event.cmd ["sudo", "apt", "update"]]
  ++ log_message "Installing Python dependencies (python3-venv, python3-pip)"
  ++ [Event.cmd ["sudo", "apt", "install", "-y", "python3-venv", "python3-pip"]]
  ++ log_message "Python dependencies installed successfully"

/-- `install_prerequisites` (source lines 74-90).  The `Config` argument is
unused: the step reads no module constant. -/
def install_prerequisites (sys : Sys) (_ : Config) : List Event × Bool :=
  runStep sys.fails prereq_body
    (fun a => "Failed to install Python dependencies: " ++ cpe_str a)

/-- The `try` body of `clone_repository` (source lines 94-117), with its two
filesystem conditionals resolved against the oracle. -/
def clone_body (sys : Sys) (cfg : Config) : List Event :=
  (if sys.pathExists cfg.BASE_DIR then []
   else
     log_message ("Creating base directory " ++ cfg.BASE_DIR)
       ++ [Event.cmd ["sudo", "mkdir", "-p", cfg.BASE_DIR]])
  ++ log_message ("Setting permissions for base directory " ++ cfg.BASE_DIR)
  ++ [Event.cmd ["sudo", "chown", cfg.USER ++ ":" ++ cfg.USER, cfg.BASE_DIR]]
  ++ (if sys.pathExists cfg.PROJECT_DIR then
        log_message ("Target directory " ++ cfg.PROJECT_DIR ++ " already exists. Removing it.")
          ++ [Event.cmd ["sudo", "rm", "-rf", cfg.PROJECT_DIR]]
      else
        log_message ("Target directory " ++ cfg.PROJECT_DIR ++ " does not exist. Proceeding with clone."))
  ++ log_message ("Cloning repository from " ++ repo_url ++ " to " ++ cfg.PROJECT_DIR)
  ++ [Event.cmd ["git", "clone", repo_url, cfg.PROJECT_DIR]]
  ++ log_message "Repository cloned successfully"

/-- `clone_repository` (source lines 92-123). -/
def clone_repository (sys : Sys) (cfg : Config) : List Event × Bool :=
  runStep sys.fails (clone_body sys cfg)
    (fun a => "Failed to clone repository: " ++ cpe_str a)

/-- The `try` body of `setup_virtual_environment` (source lines 36-57).
`os.path.exists('requirements.txt')` is queried with the literal relative
string the source passes, after the `os.chdir` to the project directory. -/
def venv_body (sys : Sys) (cfg : Config) : List Event :=
  log_message ("Changing to project directory: " ++ cfg.PROJECT_DIR)
  ++ [Event.fsop "makedirs" cfg.PROJECT_DIR, Event.fsop "chdir" cfg.PROJECT_DIR]
  ++ log_message "Creating Python virtual environment"
  ++ [Event.cmd ["python3", "-m", "venv", "venv"]]
  ++ (if sys.pathExists "requirements.txt" then
        log_message "Installing project dependencies from requirements.txt"
          ++ [Event.cmd [cfg.VENV_PIP, "install", "-r", "requirements.txt"]]
          ++ log_message "Project dependencies installed successfully"
      else
        log_message "No requirements.txt found, skipping dependency installation" logging_WARNING)
  ++ log_message "Virtual environment setup complete"
  ++ log_message ("To activate the environment, run: source " ++ cfg.VENV_ACTIVATE)

/-- `setup_virtual_environment` (source lines 34-63). -/
def setup_virtual_environment (sys : Sys) (cfg : Config) : List Event × Bool :=
  runStep sys.fails (venv_body sys cfg)
    (fun a => "Failed to setup virtual environment: " ++ cpe_str a)

/-- The systemd unit file content built by the f-string at source
lines 194-206, as a function of the interpolated module constants. -/
def service_content (gunicornBin projectDir : String) (port : Int) : String :=
  "[Unit]\nDescription=Tooltrack Web Server\n\n[Service]\nExecStart="
    ++ gunicornBin ++ " app:app -w 4 -b 127.0.0.1:" ++ toString port
    ++ "\nWorkingDirectory=" ++ projectDir
    ++ "\nRestart=on-failure\nUser=ubuntu\nGroup=ubuntu\n\n[Install]\nWantedBy=multi-user.target\n"

/-- The `try` body of `setup_background_service` (source lines 192-224). -/
def service_body (cfg : Config) : List Event :=
  log_message "Creating systemd service file for Tooltrack"
  ++ [Event.write "/tmp/tooltrack.service"
        (service_content cfg.GUNICORN_BIN cfg.PROJECT_DIR cfg.APP_PORT)]
  ++ [Event.cmd ["sudo", "cp", "/tmp/tooltrack.service", "/etc/systemd/system/tooltrack.service"]]
  ++ log_message "Reloading systemd daemon"
  ++ [Event.cmd ["sudo", "systemctl", "daemon-reload"]]
  ++ log_message "Starting Tooltrack service"
  ++ [Event.cmd ["sudo", "systemctl", "start", "tooltrack"]]
  ++ log_message "Enabling Tooltrack service to start on boot"
  ++ [Event.cmd ["sudo", "systemctl", "enable", "tooltrack"]]
  ++ log_message "Tooltrack service successfully set up and started"
  ++ log_message "Service status: sudo systemctl status tooltrack"

/-- `setup_background_service` (source lines 190-231). -/
def setup_background_service (sys : Sys) (cfg : Config) : List Event × Bool :=
  runStep sys.fails (service_body cfg)
    (fun a => "Failed to set up Tooltrack service: " ++ cpe_str a)

/-- The Apache virtual-host content built by the f-string at source
lines 135-145, as a function of the interpolated module constants. -/
def vhost_content (domain : String) (port : Int) : String :=
  "<VirtualHost *:80>\n        ServerName " ++ domain
    ++ "\n        ServerAlias www." ++ domain
    ++ "\n\n        ProxyPass / http://127.0.0.1:" ++ toString port
    ++ "/\n        ProxyPassReverse / http://127.0.0.1:" ++ toString port
    ++ "/\n\n</VirtualHost>\n\n# vim: syntax=apache ts=4 sw=4 sts=4 sr noet\n"

/-- Error message of `setup_apache_reverse_proxy`'s outer `except` clause
(source line 184). -/
def apacheFailMsg (a : List String) : String :=
  "Failed to set up Apache2 reverse proxy: " ++ cpe_str a

/-- The part of `setup_apache_reverse_proxy`'s body before the inner
`try/except` around `a2dissite` (source lines 128-167). -/
def apache_body1 (sys : Sys) (cfg : Config) : List Event :=
  log_message "Installing Apache2 server"
  ++ [Event.cmd ["sudo", "apt", "install", "-y", "apache2"]]
  ++ log_message "Stopping Tooltrack service temporarily"
  ++ [Event.cmd ["sudo", "systemctl", "stop", "tooltrack"]]
  ++ log_message ("Configuring Apache2 virtual host for " ++ cfg.DOMAIN_NAME)
  ++ [Event.cmd ["sudo", "rm", "-f", apache_conf_dir ++ "/default-ssl.conf"]]
  ++ (if sys.pathExists (apache_conf_dir ++ "/000-default.conf") then
        log_message "Removing default Apache2 configuration"
          ++ [Event.cmd ["sudo", "mv", apache_conf_dir ++ "/000-default.conf",
                apache_conf_dir ++ "/" ++ cfg.DOMAIN_NAME ++ ".conf"]]
      else [])
  ++ [Event.write ("/tmp/" ++ cfg.DOMAIN_NAME ++ ".conf")
        (vhost_content cfg.DOMAIN_NAME cfg.APP_PORT)]
  ++ [Event.cmd ["sudo", "cp", "/tmp/" ++ cfg.DOMAIN_NAME ++ ".conf",
        apache_conf_dir ++ "/" ++ cfg.DOMAIN_NAME ++ ".conf"]]
  ++ log_message "Enabling required Apache2 modules"
  ++ [Event.cmd ["sudo", "a2enmod", "proxy", "proxy_http"]]
  ++ log_message "Disabling default site and enabling Tooltrack site"

/-- The inner `try/except` around `a2dissite` (source lines 168-171): the
command is invoked; if it fails, the `CalledProcessError` is caught, a
warning is logged, and the step continues. -/
def apache_dissite (sys : Sys) : List Event :=
  if sys.fails a2dissite_cmd then
    [Event.cmd a2dissite_cmd]
      ++ log_message "Default site 000-default.conf does not exist, continuing anyway" logging_WARNING
  else [Event.cmd a2dissite_cmd]

/-- The part of `setup_apache_reverse_proxy`'s body after the inner
`try/except` (source lines 172-181). -/
def apache_body2 (cfg : Config) : List Event :=
  [Event.cmd ["sudo", "a2ensite", cfg.DOMAIN_NAME ++ ".conf"]]
  ++ log_message "Reloading Apache2 configuration"
  ++ [Event.cmd ["sudo", "systemctl", "reload", "apache2"]]
  ++ log_message "Restarting Tooltrack service"
  ++ [Event.cmd ["sudo", "systemctl", "start", "tooltrack"]]
  ++ log_message "Apache2 reverse proxy setup complete"
  ++ log_message ("Tooltrack is now accessible at http://" ++ cfg.DOMAIN_NAME)

/-- `setup_apache_reverse_proxy` (source lines 125-188): first body segment,
then the guarded `a2dissite`, then the rest; a `CalledProcessError` in
either unguarded segment falls to the outer `except` clause. -/
def setup_apache_reverse_proxy (sys : Sys) (cfg : Config) : List Event × Bool :=
  match runBody sys.fails (apache_body1 sys cfg) with
  | (evs, some a) => (evs ++ log_message (apacheFailMsg a) logging_ERROR, false)
  | (evs1, none) =>
    match runBody sys.fails (apache_body2 cfg) with
    | (evs2, some a) =>
      (evs1 ++ apache_dissite sys ++ evs2 ++ log_message (apacheFailMsg a) logging_ERROR, false)
    | (evs2, none) => (evs1 ++ apache_dissite sys ++ evs2, true)

/-- The expect script written by `setup_ssl_certificates` (source
lines 245-257); `\\r` in the Python source is a literal backslash-r in the
file content. -/
def certbot_expect_script : String :=
  "#!/usr/bin/expect\nset timeout 300\nspawn sudo certbot --apache\nexpect \"Enter email address\"\nsend \"the1name@outlook.com\\r\"\nexpect \"the Terms of Service\"\nsend \"Y\\r\"\nexpect \"share your email\"\nsend \"N\\r\"\nexpect \"Select the appropriate number\"\nsend \"\\r\"\nexpect eof\n"

/-- The `try` body of `setup_ssl_certificates` (source lines 235-268). -/
def ssl_body (cfg : Config) : List Event :=
  log_message "Installing Certbot via snap"
  ++ [Event.cmd ["sudo", "snap", "install", "--classic", "certbot"]]
  ++ log_message "Creating symlink for certbot"
  ++ [Event.cmd ["sudo", "ln", "-sf", "/snap/bin/certbot", "/usr/bin/certbot"]]
  ++ log_message "Obtaining SSL certificates with Certbot"
  ++ [Event.write "/tmp/certbot_expect.exp" certbot_expect_script]
  ++ [Event.cmd ["chmod", "+x", "/tmp/certbot_expect.exp"]]
  ++ [Event.cmd ["sudo", "apt", "install", "-y", "expect"]]
  ++ log_message "Running Certbot to obtain SSL certificates"
  ++ [Event.cmd ["/tmp/certbot_expect.exp"]]
  ++ log_message "SSL certificates successfully obtained and configured"
  ++ log_message ("Website is now accessible via HTTPS: https://" ++ cfg.DOMAIN_NAME)

/-- `setup_ssl_certificates` (source lines 233-275). -/
def setup_ssl_certificates (sys : Sys) (cfg : Config) : List Event × Bool :=
  runStep sys.fails (ssl_body cfg)
    (fun a => "Failed to set up SSL certificates: " ++ cpe_str a)

/-- The `"=" * 60` separator printed by the `__main__` block. -/
def sepLine : String := String.mk (List.replicate 60 '=')

/-- The events emitted by the `__main__` block before the first step
(source lines 278-280). -/
def mainPre : List Event :=
  [Event.printOut sepLine]
    ++ log_message "Starting initialization process for the web application"
    ++ [Event.printOut sepLine]

/-- The two success logs between the Apache step and the SSL step
(source lines 312-313). -/
def midLogs (cfg : Config) : List Event :=
  log_message "Application setup completed successfully"
    ++ log_message ("Tooltrack web server is now running and accessible at http://" ++ cfg.DOMAIN_NAME)

/-- The two success logs after the SSL step (source lines 321-322). -/
def endLogs (cfg : Config) : List Event :=
  log_message "Application setup completed successfully"
    ++ log_message ("Tooltrack web server is now running and accessible at https://" ++ cfg.DOMAIN_NAME)

/-- The `__main__` block (source lines 277-322): run the six steps in order,
and after the first step that returns `False` log the cause at
`logging.ERROR` and exit with status 1; exit with status 0 when all six
succeed.  Result: the full event trace and the process exit status. -/
def runMain (sys : Sys) (cfg : Config) : List Event × Nat :=
  match install_prerequisites sys cfg with
  | (e1, false) =>
    (mainPre ++ e1 ++ log_message "Failed to install prerequisites. Exiting." logging_ERROR, 1)
  | (e1, true) =>
    match clone_repository sys cfg with
    | (e2, false) =>
      (mainPre ++ e1 ++ e2 ++ log_message "Failed to clone repository. Exiting." logging_ERROR, 1)
    | (e2, true) =>
      match setup_virtual_environment sys cfg with
      | (e3, false) =>
        (mainPre ++ e1 ++ e2 ++ e3
          ++ log_message "Failed to set up virtual environment. Exiting." logging_ERROR, 1)
      | (e3, true) =>
        match setup_background_service sys cfg with
        | (e4, false) =>
          (mainPre ++ e1 ++ e2 ++ e3 ++ e4
            ++ log_message "Failed to set up background service. Exiting." logging_ERROR, 1)
        | (e4, true) =>
          match setup_apache_reverse_proxy sys cfg with
          | (e5, false) =>
            (mainPre ++ e1 ++ e2 ++ e3 ++ e4 ++ e5
              ++ log_message "Failed to set up Apache2 reverse proxy. Exiting." logging_ERROR, 1)
          | (e5, true) =>
            match setup_ssl_certificates sys cfg with
            | (e6, false) =>
              (mainPre ++ e1 ++ e2 ++ e3 ++ e4 ++ e5 ++ midLogs cfg ++ e6
                ++ log_message "Failed to set up SSL certificates. Exiting." logging_ERROR, 1)
            | (e6, true) =>
              (mainPre ++ e1 ++ e2 ++ e3 ++ e4 ++ e5 ++ midLogs cfg ++ e6 ++ endLogs cfg, 0)

/-- Errors that abort module initialization before `logging.basicConfig`
and before `__main__`. -/
inductive InitError where
  | valueError
deriving DecidableEq

/-- A whole run of the script as a process: module initialization
(source lines 11-22) first — `int(os.environ.get("APP_PORT", "8000"))` at
line 22 raises an uncaught `ValueError` on an invalid string, before the
logging configuration at lines 25-32 and before any step — then the
`__main__` block.  `Except.error` carries no trace: nothing observable has
happened when module initialization aborts. -/
def runScript (sys : Sys) (env : String → Option String) :
    Except InitError (List Event × Nat) :=
  if pythonIntValid (getenv env "APP_PORT" "8000") then
    Except.ok (runMain sys (mkConfig env))
  else Except.error InitError.valueError

/-- The external commands of a trace, in order. -/
def cmdsOf : List Event → List (List String)
  | [] => []
  | Event.cmd a :: rest => a :: cmdsOf rest
  | _ :: rest => cmdsOf rest

/-- A piece of a fixed file template: a literal run of bytes or a named
hole for a configured value.  Written from the spec's description of the
generated files ("byte-identical to the fixed templates with the configured
domain/port substituted"). -/
inductive Piece where
  | lit (s : String)
  | hole (name : String)

/-- Render a template by substituting an assignment of strings for holes. -/
def renderTemplate (σ : String → String) : List Piece → String
  | [] => ""
  | Piece.lit s :: rest => s ++ renderTemplate σ rest
  | Piece.hole n :: rest => σ n ++ renderTemplate σ rest

/-- Modelled from the spec: the fixed Apache virtual-host template
(ServerName/ServerAlias, ProxyPass/ProxyPassReverse pair) with holes for
the configured domain and port. -/
def vhostTemplate : List Piece :=
  [Piece.lit "<VirtualHost *:80>\n        ServerName ", Piece.hole "DOMAIN",
   Piece.lit "\n        ServerAlias www.", Piece.hole "DOMAIN",
   Piece.lit "\n\n        ProxyPass / http://127.0.0.1:", Piece.hole "PORT",
   Piece.lit "/\n        ProxyPassReverse / http://127.0.0.1:", Piece.hole "PORT",
   Piece.lit "/\n\n</VirtualHost>\n\n# vim: syntax=apache ts=4 sw=4 sts=4 sr noet\n"]

/-- Modelled from the spec: the fixed five-field systemd unit template
(ExecStart, WorkingDirectory, Restart policy, User/Group, WantedBy) with
holes for the configured gunicorn path, project directory and port. -/
def serviceTemplate : List Piece :=
  [Piece.lit "[Unit]\nDescription=Tooltrack Web Server\n\n[Service]\nExecStart=",
   Piece.hole "GUNICORN",
   Piece.lit " app:app -w 4 -b 127.0.0.1:", Piece.hole "PORT",
   Piece.lit "\nWorkingDirectory=", Piece.hole "PROJECT_DIR",
   Piece.lit "\nRestart=on-failure\nUser=ubuntu\nGroup=ubuntu\n\n[Install]\nWantedBy=multi-user.target\n"]

/-- Hole assignment for the virtual-host template. -/
def vhostAssign (domain : String) (port : Int) : String → String :=
  fun n => if n = "DOMAIN" then domain else if n = "PORT" then toString port else ""

/-- Hole assignment for the service-unit template. -/
def serviceAssign (gunicornBin projectDir : String) (port : Int) : String → String :=
  fun n =>
    if n = "GUNICORN" then gunicornBin
    else if n = "PORT" then toString port
    else if n = "PROJECT_DIR" then projectDir
    else ""

/-- Whether `t` occurs as a contiguous substring of the character list. -/
def charsContain (t : List Char) : List Char → Bool
  | [] => t.isEmpty
  | c :: rest => t.isPrefixOf (c :: rest) || charsContain t rest

/-- Whether `t` occurs as a contiguous substring of `s`. -/
def strContains (s t : String) : Bool :=
  charsContain t.toList s.toList

/-- Modelled from the spec: the documented external commands of
`install_prerequisites`, in order. -/
def prereqCmds : List (List String) :=
  [["sudo", "apt", "update"],
   ["sudo", "apt", "install", "-y", "python3-venv", "python3-pip"]]

/-- Modelled from the spec: the documented external commands of
`clone_repository`, in order, with its two filesystem conditionals. -/
def cloneCmds (sys : Sys) (cfg : Config) : List (List String) :=
  (if sys.pathExists cfg.BASE_DIR then [] else [["sudo", "mkdir", "-p", cfg.BASE_DIR]])
  ++ [["sudo", "chown", cfg.USER ++ ":" ++ cfg.USER, cfg.BASE_DIR]]
  ++ (if sys.pathExists cfg.PROJECT_DIR then [["sudo", "rm", "-rf", cfg.PROJECT_DIR]] else [])
  ++ [["git", "clone", repo_url, cfg.PROJECT_DIR]]

/-- Modelled from the spec: the documented external commands of
`setup_virtual_environment`, in order, with the requirements conditional. -/
def venvCmds (sys : Sys) (cfg : Config) : List (List String) :=
  [["python3", "-m", "venv", "venv"]]
  ++ (if sys.pathExists "requirements.txt"
      then [[cfg.VENV_PIP, "install", "-r", "requirements.txt"]] else [])

/-- Modelled from the spec: the documented external commands of
`setup_background_service`, in order. -/
def serviceCmds : List (List String) :=
  [["sudo", "cp", "/tmp/tooltrack.service", "/etc/systemd/system/tooltrack.service"],
   ["sudo", "systemctl", "daemon-reload"],
   ["sudo", "systemctl", "start", "tooltrack"],
   ["sudo", "systemctl", "enable", "tooltrack"]]

/-- Modelled from the spec: the documented external commands of
`setup_apache_reverse_proxy`, in order, with the default-site conditional. -/
def apacheCmds (sys : Sys) (cfg : Config) : List (List String) :=
  [["sudo", "apt", "install", "-y", "apache2"],
   ["sudo", "systemctl", "stop", "tooltrack"],
   ["sudo", "rm", "-f", apache_conf_dir ++ "/default-ssl.conf"]]
  ++ (if sys.pathExists (apache_conf_dir ++ "/000-default.conf") then
        [["sudo", "mv", apache_conf_dir ++ "/000-default.conf",
          apache_conf_dir ++ "/" ++ cfg.DOMAIN_NAME ++ ".conf"]]
      else [])
  ++ [["sudo", "cp", "/tmp/" ++ cfg.DOMAIN_NAME ++ ".conf",
        apache_conf_dir ++ "/" ++ cfg.DOMAIN_NAME ++ ".conf"],
      ["sudo", "a2enmod", "proxy", "proxy_http"],
      a2dissite_cmd,
      ["sudo", "a2ensite", cfg.DOMAIN_NAME ++ ".conf"],
      ["sudo", "systemctl", "reload", "apache2"],
      ["sudo", "systemctl", "start", "tooltrack"]]

/-- Modelled from the spec: the documented external commands of
`setup_ssl_certificates`, in order. -/
def sslCmds : List (List String) :=
  [["sudo", "snap", "install", "--classic", "certbot"],
   ["sudo", "ln", "-sf", "/snap/bin/certbot", "/usr/bin/certbot"],
   ["chmod", "+x", "/tmp/certbot_expect.exp"],
   ["sudo", "apt", "install", "-y", "expect"],
   ["/tmp/certbot_expect.exp"]]

/-- Modelled from the spec: the full documented command sequence of a
successful run, in the fixed documented step order — prerequisites, clone,
virtual environment, background service, Apache reverse proxy, SSL. -/
def specCommands (sys : Sys) (cfg : Config) : List (List String) :=
  prereqCmds ++ cloneCmds sys cfg ++ venvCmds sys cfg ++ serviceCmds
    ++ apacheCmds sys cfg ++ sslCmds

/-- A world where every external command succeeds and no path exists. -/
def sys0 : Sys := ⟨fun _ => false, fun _ => false⟩

/-- A world where every external command succeeds and every path exists. -/
def sysAll : Sys := ⟨fun _ => false, fun _ => true⟩

/-- A world where exactly the guarded `a2dissite` invocation fails. -/
def sysD : Sys := ⟨fun a => a == a2dissite_cmd, fun _ => false⟩

/-- An empty process environment: every variable unset. -/
def env0 : String → Option String := fun _ => none

/-- An environment that differs from `env0` only in `USER`. -/
def envU : String → Option String := fun k => if k = "USER" then some "alice" else none

/-- The configuration from the empty environment (all defaults). -/
def cfg0 : Config := mkConfig env0

/-- A world where every external command fails. -/
def sysF : Sys := ⟨fun _ => true, fun _ => false⟩

/-- An environment whose `APP_PORT` is not a valid integer string. -/
def envBad : String → Option String := fun k => if k = "APP_PORT" then some "abc" else none

/-- An environment that differs from `env0` only in a variable the script
never reads. -/
def envH : String → Option String := fun k => if k = "HOME" then some "/root" else none

/-- An exception raised inside a step's `try` block: either a
`subprocess.CalledProcessError` from an invoked command (first `except`
tier), or any other exception — in this script an `OSError` from `open()`,
the file `write`, `os.makedirs` or `os.chdir` — carrying its `str(e)`
rendering (second `except Exception` tier). -/
inductive StepExn where
  | calledProcessError (args : List String)
  | other (msg : String)
deriving DecidableEq

/-- Oracle for the second exception source: whether a file write or an `os`
filesystem call raises, and with what `str(e)` rendering.  It is consulted
exactly for `Event.write` and `Event.fsop` events; command failures stay
with `Sys.fails`. -/
structure ExnOracle where
  opRaises : Event → Option String

/-- Run a `try` body in the refined model: commands can raise
`CalledProcessError` (the command was invoked, so its event is emitted) and
write/fsop operations can raise any other exception (the operation did not
complete, so no event is emitted); either cuts the body short. -/
def runBodyExn (sys : Sys) (exn : ExnOracle) : List Event → List Event × Option StepExn
  | [] => ([], none)
  | Event.cmd a :: rest =>
    if sys.fails a then ([Event.cmd a], some (StepExn.calledProcessError a))
    else
      let r := runBodyExn sys exn rest
      (Event.cmd a :: r.1, r.2)
  | Event.write p c :: rest =>
    match exn.opRaises (Event.write p c) with
    | some m => ([], some (StepExn.other m))
    | none =>
      let r := runBodyExn sys exn rest
      (Event.write p c :: r.1, r.2)
  | Event.fsop o a :: rest =>
    match exn.opRaises (Event.fsop o a) with
    | some m => ([], some (StepExn.other m))
    | none =>
      let r := runBodyExn sys exn rest
      (Event.fsop o a :: r.1, r.2)
  | e :: rest =>
    let r := runBodyExn sys exn rest
    (e :: r.1, r.2)

/-- The message logged for a step exception: the two `except` clauses each
step repeats — `except subprocess.CalledProcessError` logs the specific
prefix with `str(e)` of the failed command, `except Exception` logs the
generic prefix with `str(e)` of the exception. -/
def exnMsg (cpePre genPre : String) : StepExn → String
  | StepExn.calledProcessError a => cpePre ++ cpe_str a
  | StepExn.other m => genPre ++ m

/-- The step wrapper in the refined model, mirroring the full two-tier
`try/except`: on success return `True`; on either exception log the
corresponding ERROR message and return `False`. -/
def runStepExn (sys : Sys) (exn : ExnOracle) (body : List Event)
    (cpePre genPre : String) : List Event × Bool :=
  match runBodyExn sys exn body with
  | (evs, none) => (evs, true)
  | (evs, some e) => (evs ++ log_message (exnMsg cpePre genPre e) logging_ERROR, false)

/-- `install_prerequisites` in the refined model (same body). -/
def install_prerequisites_exn (sys : Sys) (exn : ExnOracle) (_ : Config) :
    List Event × Bool :=
  runStepExn sys exn prereq_body
    "Failed to install Python dependencies: "
    "Unexpected error while installing Python dependencies: "

/-- `clone_repository` in the refined model (same body). -/
def clone_repository_exn (sys : Sys) (exn : ExnOracle) (cfg : Config) :
    List Event × Bool :=
  runStepExn sys exn (clone_body sys cfg)
    "Failed to clone repository: "
    "Unexpected error while cloning repository: "

/-- `setup_virtual_environment` in the refined model (same body; here the
generic tier is reachable through `os.makedirs`/`os.chdir` as well as the
file check). -/
def setup_virtual_environment_exn (sys : Sys) (exn : ExnOracle) (cfg : Config) :
    List Event × Bool :=
  runStepExn sys exn (venv_body sys cfg)
    "Failed to setup virtual environment: "
    "Unexpected error while setting up virtual environment: "

/-- `setup_background_service` in the refined model (same body; the generic
tier is reachable through the `open()`/`write` of the unit file). -/
def setup_background_service_exn (sys : Sys) (exn : ExnOracle) (cfg : Config) :
    List Event × Bool :=
  runStepExn sys exn (service_body cfg)
    "Failed to set up Tooltrack service: "
    "Unexpected error while setting up Tooltrack service: "

/-- `setup_apache_reverse_proxy` in the refined model: same two body
segments around the guarded `a2dissite`; an exception of either tier in an
unguarded segment falls to the outer clauses (the inner `except` at
line 170 catches only `CalledProcessError`, and the guarded statement is a
single `subprocess.run`). -/
def setup_apache_reverse_proxy_exn (sys : Sys) (exn : ExnOracle) (cfg : Config) :
    List Event × Bool :=
  match runBodyExn sys exn (apache_body1 sys cfg) with
  | (evs, some e) =>
    (evs ++ log_message (exnMsg "Failed to set up Apache2 reverse proxy: "
        "Unexpected error while setting up Apache2 reverse proxy: " e) logging_ERROR, false)
  | (evs1, none) =>
    match runBodyExn sys exn (apache_body2 cfg) with
    | (evs2, some e) =>
      (evs1 ++ apache_dissite sys ++ evs2
        ++ log_message (exnMsg "Failed to set up Apache2 reverse proxy: "
            "Unexpected error while setting up Apache2 reverse proxy: " e) logging_ERROR, false)
    | (evs2, none) => (evs1 ++ apache_dissite sys ++ evs2, true)

/-- `setup_ssl_certificates` in the refined model (same body; the generic
tier is reachable through the `open()`/`write` of the expect script). -/
def setup_ssl_certificates_exn (sys : Sys) (exn : ExnOracle) (cfg : Config) :
    List Event × Bool :=
  runStepExn sys exn (ssl_body cfg)
    "Failed to set up SSL certificates: "
    "Unexpected error while setting up SSL certificates: "

/-- The six step functions of the refined model with the error-message
prefixes of their two `except` clauses: the specific
`except subprocess.CalledProcessError` prefix first, then the generic
`except Exception` prefix. -/
def stepFunsExn :
    List (String × String × (Sys → ExnOracle → Config → List Event × Bool)) :=
  [("Failed to install Python dependencies: ",
    "Unexpected error while installing Python dependencies: ",
    install_prerequisites_exn),
   ("Failed to clone repository: ",
    "Unexpected error while cloning repository: ",
    clone_repository_exn),
   ("Failed to setup virtual environment: ",
    "Unexpected error while setting up virtual environment: ",
    setup_virtual_environment_exn),
   ("Failed to set up Tooltrack service: ",
    "Unexpected error while setting up Tooltrack service: ",
    setup_background_service_exn),
   ("Failed to set up Apache2 reverse proxy: ",
    "Unexpected error while setting up Apache2 reverse proxy: ",
    setup_apache_reverse_proxy_exn),
   ("Failed to set up SSL certificates: ",
    "Unexpected error while setting up SSL certificates: ",
    setup_ssl_certificates_exn)]

/-- An exception oracle where no file or filesystem operation raises. -/
def exn0 : ExnOracle := ⟨fun _ => none⟩

/-- An exception oracle where exactly the write of the systemd unit file
raises an `OSError`. -/
def exnW : ExnOracle := ⟨fun ev =>
  match ev with
  | Event.write "/tmp/tooltrack.service" _ => some "No space left on device"
  | _ => none⟩


theorem aux_runBody_none_inv {f : List String → Bool} :
    ∀ {l evs : List Event}, runBody f l = (evs, none) →
      evs = l ∧ ∀ a, Event.cmd a ∈ l → f a = false := by
  intro l
  induction l with
  | nil =>
    intro evs h
    simp only [runBody, Prod.mk.injEq] at h
    exact ⟨h.1.symm, by intro a ha; cases ha⟩
  | cons e rest ih =>
    intro evs h
    rcases hr : runBody f rest with ⟨evs', r⟩
    cases e with
    | cmd a =>
      simp only [runBody, hr] at h
      cases hfa : f a with
      | true => rw [hfa] at h; simp at h
      | false =>
        rw [hfa] at h
        simp only [Bool.false_eq_true, if_false, Prod.mk.injEq] at h
        obtain ⟨hev, hrn⟩ := h
        obtain ⟨he, hall⟩ := ih (by rw [hr, hrn])
        subst he
        refine ⟨hev.symm, ?_⟩
        intro b hb
        rcases List.mem_cons.mp hb with hb | hb
        · cases hb; exact hfa
        · exact hall b hb
    | log lv m =>
      simp only [runBody, hr, Prod.mk.injEq] at h
      obtain ⟨hev, hrn⟩ := h
      obtain ⟨he, hall⟩ := ih (by rw [hr, hrn])
      subst he
      refine ⟨hev.symm, ?_⟩
      intro b hb
      rcases List.mem_cons.mp hb with hb | hb
      · cases hb
      · exact hall b hb
    | write p c =>
      simp only [runBody, hr, Prod.mk.injEq] at h
      obtain ⟨hev, hrn⟩ := h
      obtain ⟨he, hall⟩ := ih (by rw [hr, hrn])
      subst he
      refine ⟨hev.symm, ?_⟩
      intro b hb
      rcases List.mem_cons.mp hb with hb | hb
      · cases hb
      · exact hall b hb
    | printOut s =>
      simp only [runBody, hr, Prod.mk.injEq] at h
      obtain ⟨hev, hrn⟩ := h
      obtain ⟨he, hall⟩ := ih (by rw [hr, hrn])
      subst he
      refine ⟨hev.symm, ?_⟩
      intro b hb
      rcases List.mem_cons.mp hb with hb | hb
      · cases hb
      · exact hall b hb
    | fsop o arg =>
      simp only [runBody, hr, Prod.mk.injEq] at h
      obtain ⟨hev, hrn⟩ := h
      obtain ⟨he, hall⟩ := ih (by rw [hr, hrn])
      subst he
      refine ⟨hev.symm, ?_⟩
      intro b hb
      rcases List.mem_cons.mp hb with hb | hb
      · cases hb
      · exact hall b hb

theorem aux_runBody_some_inv {f : List String → Bool} :
    ∀ {l evs : List Event} {x : List String}, runBody f l = (evs, some x) → f x = true := by
  intro l
  induction l with
  | nil => intro evs x h; simp [runBody] at h
  | cons e rest ih =>
    intro evs x h
    rcases hr : runBody f rest with ⟨evs', r⟩
    cases e with
    | cmd a =>
      simp only [runBody, hr] at h
      cases hfa : f a with
      | true =>
        rw [hfa] at h
        simp only [if_true, Prod.mk.injEq] at h
        obtain ⟨_, hx⟩ := h
        cases hx; exact hfa
      | false =>
        rw [hfa] at h
        simp only [Bool.false_eq_true, if_false, Prod.mk.injEq] at h
        exact ih (by rw [hr, h.2])
    | log lv m =>
      simp only [runBody, hr, Prod.mk.injEq] at h
      exact ih (by rw [hr, h.2])
    | write p c =>
      simp only [runBody, hr, Prod.mk.injEq] at h
      exact ih (by rw [hr, h.2])
    | printOut s =>
      simp only [runBody, hr, Prod.mk.injEq] at h
      exact ih (by rw [hr, h.2])
    | fsop o arg =>
      simp only [runBody, hr, Prod.mk.injEq] at h
      exact ih (by rw [hr, h.2])

theorem aux_runBody_no_fail {f : List String → Bool} :
    ∀ l : List Event, (∀ a, Event.cmd a ∈ l → f a = false) → runBody f l = (l, none) := by
  intro l
  induction l with
  | nil => intro _; rfl
  | cons e rest ih =>
    intro hb
    have hrest : runBody f rest = (rest, none) :=
      ih (fun b hbm => hb b (List.mem_cons_of_mem _ hbm))
    cases e with
    | cmd a =>
      have hfa : f a = false := hb a (List.mem_cons_self _ _)
      simp [runBody, hfa, hrest]
    | log lv m => simp [runBody, hrest]
    | write p c => simp [runBody, hrest]
    | printOut s => simp [runBody, hrest]
    | fsop o arg => simp [runBody, hrest]

theorem aux_log_message_error (m : String) :
    log_message m logging_ERROR = [Event.log logging_ERROR m] := by
  simp [log_message, logging_ERROR, logging_INFO]

theorem aux_runStep_true_inv {f : List String → Bool} {body : List Event}
    {m : List String → String} {evs : List Event}
    (h : runStep f body m = (evs, true)) :
    evs = body ∧ ∀ a, Event.cmd a ∈ evs → f a = false := by
  rcases hb : runBody f body with ⟨evs', r⟩
  cases r with
  | none =>
    simp only [runStep, hb, Prod.mk.injEq] at h
    obtain ⟨hl, hall⟩ := aux_runBody_none_inv hb
    subst hl
    obtain ⟨hev, _⟩ := h
    subst hev
    exact ⟨rfl, hall⟩
  | some x => simp [runStep, hb] at h

theorem aux_runStep_false_inv {f : List String → Bool} {body : List Event}
    {m : List String → String} {evs : List Event}
    (h : runStep f body m = (evs, false)) :
    ∃ x, f x = true ∧ evs.getLast? = some (Event.log logging_ERROR (m x)) := by
  rcases hb : runBody f body with ⟨evs', r⟩
  cases r with
  | none => simp [runStep, hb] at h
  | some x =>
    simp only [runStep, hb, Prod.mk.injEq] at h
    refine ⟨x, aux_runBody_some_inv hb, ?_⟩
    rw [← h.1, aux_log_message_error, List.getLast?_concat]

theorem aux_runStep_no_fail {f : List String → Bool} {body : List Event}
    {m : List String → String}
    (hb : ∀ a, Event.cmd a ∈ body → f a = false) :
    runStep f body m = (body, true) := by
  simp [runStep, aux_runBody_no_fail body hb]

theorem aux_apache_true_inv {sys : Sys} {cfg : Config} {evs : List Event}
    (h : setup_apache_reverse_proxy sys cfg = (evs, true)) :
    ∀ a, Event.cmd a ∈ evs → a ≠ a2dissite_cmd → sys.fails a = false := by
  rcases h1 : runBody sys.fails (apache_body1 sys cfg) with ⟨evs1, r1⟩
  cases r1 with
  | some x => simp [setup_apache_reverse_proxy, h1] at h
  | none =>
    rcases h2 : runBody sys.fails (apache_body2 cfg) with ⟨evs2, r2⟩
    cases r2 with
    | some x => simp [setup_apache_reverse_proxy, h1, h2] at h
    | none =>
      simp only [setup_apache_reverse_proxy, h1, h2, Prod.mk.injEq] at h
      obtain ⟨hev, _⟩ := h
      subst hev
      obtain ⟨hl1, hall1⟩ := aux_runBody_none_inv h1
      obtain ⟨hl2, hall2⟩ := aux_runBody_none_inv h2
      subst hl1 hl2
      intro a ha hne
      rcases List.mem_append.mp ha with ha | ha
      · rcases List.mem_append.mp ha with ha | ha
        · exact hall1 a ha
        · unfold apache_dissite at ha
          cases hd : sys.fails a2dissite_cmd with
          | true =>
            rw [hd] at ha
            simp only [if_true] at ha
            rcases List.mem_append.mp ha with ha | ha
            · rcases List.mem_cons.mp ha with ha | ha
              · cases ha; exact absurd rfl hne
              · cases ha
            · simp [log_message, logging_WARNING, logging_INFO, logging_ERROR] at ha
          | false =>
            rw [hd] at ha
            simp only [Bool.false_eq_true, if_false] at ha
            rcases List.mem_cons.mp ha with ha | ha
            · cases ha; exact absurd rfl hne
            · cases ha
      · exact hall2 a ha

theorem aux_apache_false_inv {sys : Sys} {cfg : Config} {evs : List Event}
    (h : setup_apache_reverse_proxy sys cfg = (evs, false)) :
    ∃ x, sys.fails x = true ∧
      evs.getLast? = some (Event.log logging_ERROR (apacheFailMsg x)) := by
  rcases h1 : runBody sys.fails (apache_body1 sys cfg) with ⟨evs1, r1⟩
  cases r1 with
  | some x =>
    simp only [setup_apache_reverse_proxy, h1, Prod.mk.injEq] at h
    refine ⟨x, aux_runBody_some_inv h1, ?_⟩
    rw [← h.1, aux_log_message_error, List.getLast?_concat]
  | none =>
    rcases h2 : runBody sys.fails (apache_body2 cfg) with ⟨evs2, r2⟩
    cases r2 with
    | none => simp [setup_apache_reverse_proxy, h1, h2] at h
    | some x =>
      simp only [setup_apache_reverse_proxy, h1, h2, Prod.mk.injEq] at h
      refine ⟨x, aux_runBody_some_inv h2, ?_⟩
      rw [← h.1, aux_log_message_error, List.getLast?_concat]

theorem aux_apache_no_fail {sys : Sys} {cfg : Config}
    (hf : ∀ c, sys.fails c = false) :
    setup_apache_reverse_proxy sys cfg =
      (apache_body1 sys cfg ++ [Event.cmd a2dissite_cmd] ++ apache_body2 cfg, true) := by
  have h1 := aux_runBody_no_fail (f := sys.fails) (apache_body1 sys cfg) (fun a _ => hf a)
  have h2 := aux_runBody_no_fail (f := sys.fails) (apache_body2 cfg) (fun a _ => hf a)
  simp [setup_apache_reverse_proxy, h1, h2, apache_dissite, hf]

theorem aux_cmdsOf_append :
    ∀ l1 l2 : List Event, cmdsOf (l1 ++ l2) = cmdsOf l1 ++ cmdsOf l2 := by
  intro l1
  induction l1 with
  | nil => intro l2; rfl
  | cons e rest ih =>
    intro l2
    cases e with
    | cmd a => simp [cmdsOf, ih]
    | log lv m => simp [cmdsOf, ih]
    | write p c => simp [cmdsOf, ih]
    | printOut s => simp [cmdsOf, ih]
    | fsop o arg => simp [cmdsOf, ih]

theorem aux_cmdsOf_log (m : String) (lvl : Nat) : cmdsOf (log_message m lvl) = [] := by
  unfold log_message
  split_ifs <;> rfl

theorem aux_prereq_hf (sys : Sys) (cfg : Config) (hf : ∀ c, sys.fails c = false) :
    (install_prerequisites sys cfg).2 = true ∧
      cmdsOf (install_prerequisites sys cfg).1 = prereqCmds := by
  simp only [install_prerequisites]
  rw [aux_runStep_no_fail (fun a _ => hf a)]
  simp [prereq_body, aux_cmdsOf_append, aux_cmdsOf_log, cmdsOf, prereqCmds]

theorem aux_clone_hf (sys : Sys) (cfg : Config) (hf : ∀ c, sys.fails c = false) :
    (clone_repository sys cfg).2 = true ∧
      cmdsOf (clone_repository sys cfg).1 = cloneCmds sys cfg := by
  simp only [clone_repository]
  rw [aux_runStep_no_fail (fun a _ => hf a)]
  refine ⟨rfl, ?_⟩
  cases hb : sys.pathExists cfg.BASE_DIR <;> cases hp : sys.pathExists cfg.PROJECT_DIR <;>
    simp [clone_body, cloneCmds, hb, hp, aux_cmdsOf_append, aux_cmdsOf_log, cmdsOf]

theorem aux_venv_hf (sys : Sys) (cfg : Config) (hf : ∀ c, sys.fails c = false) :
    (setup_virtual_environment sys cfg).2 = true ∧
      cmdsOf (setup_virtual_environment sys cfg).1 = venvCmds sys cfg := by
  simp only [setup_virtual_environment]
  rw [aux_runStep_no_fail (fun a _ => hf a)]
  refine ⟨rfl, ?_⟩
  cases hr : sys.pathExists "requirements.txt" <;>
    simp [venv_body, venvCmds, hr, aux_cmdsOf_append, aux_cmdsOf_log, cmdsOf]

theorem aux_service_hf (sys : Sys) (cfg : Config) (hf : ∀ c, sys.fails c = false) :
    (setup_background_service sys cfg).2 = true ∧
      cmdsOf (setup_background_service sys cfg).1 = serviceCmds := by
  simp only [setup_background_service]
  rw [aux_runStep_no_fail (fun a _ => hf a)]
  simp [service_body, aux_cmdsOf_append, aux_cmdsOf_log, cmdsOf, serviceCmds]

theorem aux_apache_hf (sys : Sys) (cfg : Config) (hf : ∀ c, sys.fails c = false) :
    (setup_apache_reverse_proxy sys cfg).2 = true ∧
      cmdsOf (setup_apache_reverse_proxy sys cfg).1 = apacheCmds sys cfg := by
  rw [aux_apache_no_fail hf]
  refine ⟨rfl, ?_⟩
  cases hd : sys.pathExists (apache_conf_dir ++ "/000-default.conf") <;>
    simp [apache_body1, apache_body2, apacheCmds, hd,
      aux_cmdsOf_append, aux_cmdsOf_log, cmdsOf]

theorem aux_ssl_hf (sys : Sys) (cfg : Config) (hf : ∀ c, sys.fails c = false) :
    (setup_ssl_certificates sys cfg).2 = true ∧
      cmdsOf (setup_ssl_certificates sys cfg).1 = sslCmds := by
  simp only [setup_ssl_certificates]
  rw [aux_runStep_no_fail (fun a _ => hf a)]
  simp [ssl_body, aux_cmdsOf_append, aux_cmdsOf_log, cmdsOf, sslCmds]

theorem aux_runMain_success {sys : Sys} {cfg : Config}
    {e1 e2 e3 e4 e5 e6 : List Event}
    (h1 : install_prerequisites sys cfg = (e1, true))
    (h2 : clone_repository sys cfg = (e2, true))
    (h3 : setup_virtual_environment sys cfg = (e3, true))
    (h4 : setup_background_service sys cfg = (e4, true))
    (h5 : setup_apache_reverse_proxy sys cfg = (e5, true))
    (h6 : setup_ssl_certificates sys cfg = (e6, true)) :
    runMain sys cfg =
      (mainPre ++ e1 ++ e2 ++ e3 ++ e4 ++ e5 ++ midLogs cfg ++ e6 ++ endLogs cfg, 0) := by
  simp [runMain, h1, h2, h3, h4, h5, h6]

/-- C10: for every call to `log_message` with a level other than INFO,
ERROR or WARNING (for example DEBUG or CRITICAL), the message is silently
dropped — no event is produced, so nothing reaches the log file or
standard output. -/
theorem c10_other_levels_dropped (msg : String) (lvl : Nat)
    (h1 : lvl ≠ logging_INFO) (h2 : lvl ≠ logging_ERROR) (h3 : lvl ≠ logging_WARNING) :
    log_message msg lvl = [] := by
  simp [log_message, h1, h2, h3]

/-- Witness for C10 at `logging.DEBUG`. -/
theorem c10_witness :
    logging_DEBUG ≠ logging_INFO ∧ log_message "probe" logging_DEBUG = [] :=
  ⟨by decide,
   c10_other_levels_dropped "probe" logging_DEBUG (by decide) (by decide) (by decide)⟩

/-- C8: if the `APP_PORT` environment variable is set to a string that is
not a valid integer, module initialization raises an uncaught `ValueError`
(line 22) and the run aborts before logging is configured (lines 25-32),
before any step runs, and before any exit-code-1 path: the script's result
is the `ValueError`, with an empty observable trace. -/
theorem c8_invalid_port_aborts (sys : Sys) (env : String → Option String) (s : String)
    (h1 : env "APP_PORT" = some s) (h2 : pythonIntValid s = false) :
    runScript sys env = Except.error InitError.valueError := by
  simp [runScript, getenv, h1, h2]

/-- Witness for C8 with `APP_PORT="abc"`. -/
theorem c8_witness : runScript sys0 envBad = Except.error InitError.valueError :=
  c8_invalid_port_aborts sys0 envBad "abc" (by decide) (by decide)

/-- C9: when no `requirements.txt` exists in the project directory,
`setup_virtual_environment` never invokes `pip install` (its only external
command is the venv creation), logs a warning, and still returns `True`
(provided the venv creation itself succeeds). -/
theorem c9_no_requirements_skips_pip (sys : Sys) (cfg : Config)
    (hreq : sys.pathExists "requirements.txt" = false)
    (hv : sys.fails ["python3", "-m", "venv", "venv"] = false) :
    (setup_virtual_environment sys cfg).2 = true
  ∧ cmdsOf (setup_virtual_environment sys cfg).1 = [["python3", "-m", "venv", "venv"]]
  ∧ Event.log logging_WARNING "No requirements.txt found, skipping dependency installation"
      ∈ (setup_virtual_environment sys cfg).1 := by
  have hbody : ∀ a, Event.cmd a ∈ venv_body sys cfg → sys.fails a = false := by
    intro a ha
    simp [venv_body, hreq, log_message, logging_WARNING, logging_INFO, logging_ERROR] at ha
    subst ha
    exact hv
  have hstep : setup_virtual_environment sys cfg = (venv_body sys cfg, true) :=
    aux_runStep_no_fail hbody
  rw [hstep]
  refine ⟨rfl, ?_, ?_⟩
  · simp [venv_body, hreq, aux_cmdsOf_append, aux_cmdsOf_log, cmdsOf]
  · simp [venv_body, hreq, log_message, logging_WARNING, logging_INFO, logging_ERROR]

/-- Witness for C9 in the world where no path exists and no command fails. -/
theorem c9_witness :
    (setup_virtual_environment sys0 cfg0).2 = true
  ∧ cmdsOf (setup_virtual_environment sys0 cfg0).1 = [["python3", "-m", "venv", "venv"]]
  ∧ Event.log logging_WARNING "No requirements.txt found, skipping dependency installation"
      ∈ (setup_virtual_environment sys0 cfg0).1 :=
  c9_no_requirements_skips_pip sys0 cfg0 rfl rfl

/-- C5: on a successful pass of `clone_repository`, when the target project
directory already exists it is removed recursively (`sudo rm -rf`) before
the `git clone` into it; when it does not exist, the clone proceeds with no
removal.  The command list exhibits the exact order. -/
theorem c5_reclone_removes_existing_dir (sys : Sys) (cfg : Config)
    (hf : ∀ c, sys.fails c = false) :
    (clone_repository sys cfg).2 = true
  ∧ cmdsOf (clone_repository sys cfg).1 =
      (if sys.pathExists cfg.BASE_DIR then [] else [["sudo", "mkdir", "-p", cfg.BASE_DIR]])
      ++ [["sudo", "chown", cfg.USER ++ ":" ++ cfg.USER, cfg.BASE_DIR]]
      ++ (if sys.pathExists cfg.PROJECT_DIR then [["sudo", "rm", "-rf", cfg.PROJECT_DIR]] else [])
      ++ [["git", "clone", repo_url, cfg.PROJECT_DIR]] := by
  obtain ⟨hb, hc⟩ := aux_clone_hf sys cfg hf
  exact ⟨hb, by rw [hc]; rfl⟩

/-- Witness for C5 in the world where the target directory exists: the
removal precedes the clone. -/
theorem c5_witness :
    (clone_repository sysAll cfg0).2 = true
  ∧ cmdsOf (clone_repository sysAll cfg0).1 =
      [["sudo", "chown", "None:None", "/srv"],
       ["sudo", "rm", "-rf", "/srv/cs333_FinalProject"],
       ["git", "clone", repo_url, "/srv/cs333_FinalProject"]] := by
  have h := c5_reclone_removes_existing_dir sysAll cfg0 (fun _ => rfl)
  exact ⟨h.1, h.2.trans (by decide)⟩

/-- C4: for every configured domain name and application port, the generated
systemd service-unit content and Apache virtual-host content are
byte-identical to the fixed templates with the configured values
substituted; and for domain `example.com` and port 9000 the virtual-host
content contains `ServerName example.com` and
`ProxyPass / http://127.0.0.1:9000/`. -/
theorem c4_generated_files_match_templates (d : String) (p : Int) (g pd : String) :
    vhost_content d p = renderTemplate (vhostAssign d p) vhostTemplate
  ∧ service_content g pd p = renderTemplate (serviceAssign g pd p) serviceTemplate
  ∧ strContains (vhost_content "example.com" 9000) "ServerName example.com" = true
  ∧ strContains (vhost_content "example.com" 9000) "ProxyPass / http://127.0.0.1:9000/" = true := by
  refine ⟨?_, ?_, by decide, by decide⟩
  · simp [vhost_content, renderTemplate, vhostTemplate, vhostAssign, String.append_assoc]
  · simp [service_content, renderTemplate, serviceTemplate, serviceAssign, String.append_assoc]

/-- C6 (amended): behavior is a function of five environment variables —
the four documented ones plus `USER` — so two environments agreeing on all
five produce the same configuration and the same runs. -/
theorem c6_five_env_vars_determine_behavior (e1 e2 : String → Option String)
    (h : ∀ k, k ∈ ["PROJECT_NAME", "PROJECT_BASE_DIR", "DOMAIN_NAME", "APP_PORT", "USER"] →
      e1 k = e2 k) :
    mkConfig e1 = mkConfig e2 ∧ ∀ sys, runScript sys e1 = runScript sys e2 := by
  have hk1 := h "PROJECT_NAME" (by simp)
  have hk2 := h "PROJECT_BASE_DIR" (by simp)
  have hk3 := h "DOMAIN_NAME" (by simp)
  have hk4 := h "APP_PORT" (by simp)
  have hk5 := h "USER" (by simp)
  have hc : mkConfig e1 = mkConfig e2 := by
    simp [mkConfig, getenv, hk1, hk2, hk3, hk4, hk5]
  exact ⟨hc, fun sys => by simp [runScript, getenv, hk4, hc]⟩

/-- Witness for C6 (amended): an environment differing from the empty one
only in a variable the script never reads yields identical behavior. -/
theorem c6_witness :
    mkConfig env0 = mkConfig envH ∧ ∀ sys, runScript sys env0 = runScript sys envH :=
  c6_five_env_vars_determine_behavior env0 envH
    (by intro k hk; fin_cases hk <;> rfl)

/-- Counterexample to C6 as stated: two environments that agree on all four
documented variables (all unset) but differ in `USER` produce different
command traces — the `chown` argument changes — so exactly four environment
variables do not determine behavior. -/
theorem c6_counterexample :
    env0 "PROJECT_NAME" = envU "PROJECT_NAME"
  ∧ env0 "PROJECT_BASE_DIR" = envU "PROJECT_BASE_DIR"
  ∧ env0 "DOMAIN_NAME" = envU "DOMAIN_NAME"
  ∧ env0 "APP_PORT" = envU "APP_PORT"
  ∧ cmdsOf (runMain sys0 (mkConfig env0)).1 ≠ cmdsOf (runMain sys0 (mkConfig envU)).1 := by
  refine ⟨by decide, by decide, by decide, by decide, by decide⟩

theorem aux_exit1_case {sys : Sys} {cfg : Config} {X : List Event} {msg : String}
    (hmain : runMain sys cfg = (X ++ log_message msg logging_ERROR, 1)) :
    (runMain sys cfg).2 = 1 ∧ ∃ m, Event.log logging_ERROR m ∈ (runMain sys cfg).1
      ∧ ∀ hnd, hnd ∈ logHandlers → handlerReceives hnd logging_ERROR = true := by
  rw [hmain]
  refine ⟨rfl, msg, ?_, by decide⟩
  rw [aux_log_message_error]
  simp

theorem aux_getLast_errlog {sys : Sys} {cfg : Config} {X : List Event} {msg : String}
    (hmain : runMain sys cfg = (X ++ log_message msg logging_ERROR, 1)) :
    ∃ m, ((runMain sys cfg).1).getLast? = some (Event.log logging_ERROR m) := by
  rw [hmain]
  exact ⟨msg, by rw [aux_log_message_error]; exact List.getLast?_concat X⟩

/-- C2: the `__main__` gate's exit codes — if every step function returns
`True` the exit status is 0; otherwise the run exits with status 1 after
emitting an ERROR-level log of the cause, and every handler installed by
`logging.basicConfig` (the log file and standard output) receives an
ERROR-level record. -/
theorem c2_exit_codes (sys : Sys) (cfg : Config) :
    (((install_prerequisites sys cfg).2 = true ∧ (clone_repository sys cfg).2 = true
      ∧ (setup_virtual_environment sys cfg).2 = true
      ∧ (setup_background_service sys cfg).2 = true
      ∧ (setup_apache_reverse_proxy sys cfg).2 = true
      ∧ (setup_ssl_certificates sys cfg).2 = true) →
        (runMain sys cfg).2 = 0)
  ∧ ((runMain sys cfg).2 = 0
      ∨ ((runMain sys cfg).2 = 1
          ∧ ∃ m, Event.log logging_ERROR m ∈ (runMain sys cfg).1
              ∧ ∀ hnd, hnd ∈ logHandlers → handlerReceives hnd logging_ERROR = true)) := by
  rcases hs1 : install_prerequisites sys cfg with ⟨e1, b1⟩
  cases b1 with
  | false =>
    have hmain : runMain sys cfg =
        (mainPre ++ e1 ++ log_message "Failed to install prerequisites. Exiting." logging_ERROR, 1) := by
      simp only [runMain, hs1]
    exact ⟨fun hall => absurd hall.1 (by simp [hs1]), Or.inr (aux_exit1_case hmain)⟩
  | true =>
  rcases hs2 : clone_repository sys cfg with ⟨e2, b2⟩
  cases b2 with
  | false =>
    have hmain : runMain sys cfg =
        (mainPre ++ e1 ++ e2 ++ log_message "Failed to clone repository. Exiting." logging_ERROR, 1) := by
      simp only [runMain, hs1, hs2]
    exact ⟨fun hall => absurd hall.2.1 (by simp [hs2]), Or.inr (aux_exit1_case hmain)⟩
  | true =>
  rcases hs3 : setup_virtual_environment sys cfg with ⟨e3, b3⟩
  cases b3 with
  | false =>
    have hmain : runMain sys cfg =
        (mainPre ++ e1 ++ e2 ++ e3
          ++ log_message "Failed to set up virtual environment. Exiting." logging_ERROR, 1) := by
      simp only [runMain, hs1, hs2, hs3]
    exact ⟨fun hall => absurd hall.2.2.1 (by simp [hs3]), Or.inr (aux_exit1_case hmain)⟩
  | true =>
  rcases hs4 : setup_background_service sys cfg with ⟨e4, b4⟩
  cases b4 with
  | false =>
    have hmain : runMain sys cfg =
        (mainPre ++ e1 ++ e2 ++ e3 ++ e4
          ++ log_message "Failed to set up background service. Exiting." logging_ERROR, 1) := by
      simp only [runMain, hs1, hs2, hs3, hs4]
    exact ⟨fun hall => absurd hall.2.2.2.1 (by simp [hs4]), Or.inr (aux_exit1_case hmain)⟩
  | true =>
  rcases hs5 : setup_apache_reverse_proxy sys cfg with ⟨e5, b5⟩
  cases b5 with
  | false =>
    have hmain : runMain sys cfg =
        (mainPre ++ e1 ++ e2 ++ e3 ++ e4 ++ e5
          ++ log_message "Failed to set up Apache2 reverse proxy. Exiting." logging_ERROR, 1) := by
      simp only [runMain, hs1, hs2, hs3, hs4, hs5]
    exact ⟨fun hall => absurd hall.2.2.2.2.1 (by simp [hs5]), Or.inr (aux_exit1_case hmain)⟩
  | true =>
  rcases hs6 : setup_ssl_certificates sys cfg with ⟨e6, b6⟩
  cases b6 with
  | false =>
    have hmain : runMain sys cfg =
        (mainPre ++ e1 ++ e2 ++ e3 ++ e4 ++ e5 ++ midLogs cfg ++ e6
          ++ log_message "Failed to set up SSL certificates. Exiting." logging_ERROR, 1) := by
      simp only [runMain, hs1, hs2, hs3, hs4, hs5, hs6]
    exact ⟨fun hall => absurd hall.2.2.2.2.2 (by simp [hs6]), Or.inr (aux_exit1_case hmain)⟩
  | true =>
    have hmain := aux_runMain_success hs1 hs2 hs3 hs4 hs5 hs6
    exact ⟨fun _ => by rw [hmain], Or.inl (by rw [hmain])⟩

/-- Witness for C2: in the world where no command fails, all steps succeed
and the exit status is 0. -/
theorem c2_witness : (runMain sys0 cfg0).2 = 0 :=
  (c2_exit_codes sys0 cfg0).1 (by decide)

/-- C1 (amended): failure of any external command other than the guarded
`sudo a2dissite 000-default.conf` is fatal — contrapositively, a run that
exits 0 had no failing command among the invoked ones apart from possibly
`a2dissite`; and a run that exits non-zero ends at its ERROR log, with
nothing invoked after it. -/
theorem c1_command_failure_fatal_except_dissite (sys : Sys) (cfg : Config) :
    ((runMain sys cfg).2 = 0 →
      ∀ a, Event.cmd a ∈ (runMain sys cfg).1 → a ≠ a2dissite_cmd → sys.fails a = false)
  ∧ ((runMain sys cfg).2 ≠ 0 →
      ∃ m, ((runMain sys cfg).1).getLast? = some (Event.log logging_ERROR m)) := by
  rcases hs1 : install_prerequisites sys cfg with ⟨e1, b1⟩
  cases b1 with
  | false =>
    have hmain : runMain sys cfg =
        (mainPre ++ e1 ++ log_message "Failed to install prerequisites. Exiting." logging_ERROR, 1) := by
      simp only [runMain, hs1]
    exact ⟨fun h0 => absurd (by rw [hmain] at h0; exact h0) one_ne_zero,
           fun _ => aux_getLast_errlog hmain⟩
  | true =>
  rcases hs2 : clone_repository sys cfg with ⟨e2, b2⟩
  cases b2 with
  | false =>
    have hmain : runMain sys cfg =
        (mainPre ++ e1 ++ e2 ++ log_message "Failed to clone repository. Exiting." logging_ERROR, 1) := by
      simp only [runMain, hs1, hs2]
    exact ⟨fun h0 => absurd (by rw [hmain] at h0; exact h0) one_ne_zero,
           fun _ => aux_getLast_errlog hmain⟩
  | true =>
  rcases hs3 : setup_virtual_environment sys cfg with ⟨e3, b3⟩
  cases b3 with
  | false =>
    have hmain : runMain sys cfg =
        (mainPre ++ e1 ++ e2 ++ e3
          ++ log_message "Failed to set up virtual environment. Exiting." logging_ERROR, 1) := by
      simp only [runMain, hs1, hs2, hs3]
    exact ⟨fun h0 => absurd (by rw [hmain] at h0; exact h0) one_ne_zero,
           fun _ => aux_getLast_errlog hmain⟩
  | true =>
  rcases hs4 : setup_background_service sys cfg with ⟨e4, b4⟩
  cases b4 with
  | false =>
    have hmain : runMain sys cfg =
        (mainPre ++ e1 ++ e2 ++ e3 ++ e4
          ++ log_message "Failed to set up background service. Exiting." logging_ERROR, 1) := by
      simp only [runMain, hs1, hs2, hs3, hs4]
    exact ⟨fun h0 => absurd (by rw [hmain] at h0; exact h0) one_ne_zero,
           fun _ => aux_getLast_errlog hmain⟩
  | true =>
  rcases hs5 : setup_apache_reverse_proxy sys cfg with ⟨e5, b5⟩
  cases b5 with
  | false =>
    have hmain : runMain sys cfg =
        (mainPre ++ e1 ++ e2 ++ e3 ++ e4 ++ e5
          ++ log_message "Failed to set up Apache2 reverse proxy. Exiting." logging_ERROR, 1) := by
      simp only [runMain, hs1, hs2, hs3, hs4, hs5]
    exact ⟨fun h0 => absurd (by rw [hmain] at h0; exact h0) one_ne_zero,
           fun _ => aux_getLast_errlog hmain⟩
  | true =>
  rcases hs6 : setup_ssl_certificates sys cfg with ⟨e6, b6⟩
  cases b6 with
  | false =>
    have hmain : runMain sys cfg =
        (mainPre ++ e1 ++ e2 ++ e3 ++ e4 ++ e5 ++ midLogs cfg ++ e6
          ++ log_message "Failed to set up SSL certificates. Exiting." logging_ERROR, 1) := by
      simp only [runMain, hs1, hs2, hs3, hs4, hs5, hs6]
    exact ⟨fun h0 => absurd (by rw [hmain] at h0; exact h0) one_ne_zero,
           fun _ => aux_getLast_errlog hmain⟩
  | true =>
    have hmain := aux_runMain_success hs1 hs2 hs3 hs4 hs5 hs6
    constructor
    · intro _ a ha hne
      rw [hmain] at ha
      simp only [List.mem_append] at ha
      rcases ha with ((((((((h | h) | h) | h) | h) | h) | h) | h) | h)
      · exact absurd h (by simp [mainPre, log_message])
      · exact (aux_runStep_true_inv hs1).2 a h
      · exact (aux_runStep_true_inv hs2).2 a h
      · exact (aux_runStep_true_inv hs3).2 a h
      · exact (aux_runStep_true_inv hs4).2 a h
      · exact aux_apache_true_inv hs5 a h hne
      · exact absurd h (by simp [midLogs, log_message])
      · exact (aux_runStep_true_inv hs6).2 a h
      · exact absurd h (by simp [endLogs, log_message])
    · intro hne
      rw [hmain] at hne
      exact absurd rfl hne

/-- Counterexample to C1 as stated: in the world where exactly the
`a2dissite 000-default.conf` command reports failure, the command is
invoked, later commands (`a2ensite`) are still invoked, and the run
terminates with status 0 — the failure is not fatal. -/
theorem c1_counterexample :
    sysD.fails a2dissite_cmd = true
  ∧ Event.cmd a2dissite_cmd ∈ (runMain sysD cfg0).1
  ∧ Event.cmd ["sudo", "a2ensite", "2tooltrack.m3chok.com.conf"] ∈ (runMain sysD cfg0).1
  ∧ (runMain sysD cfg0).2 = 0 := by
  refine ⟨by decide, by decide, by decide, by decide⟩

/-- Witness for C1 (amended) in the all-succeeding world: the run exits 0,
so the theorem yields that an invoked command did not fail. -/
theorem c1_witness : sys0.fails ["sudo", "apt", "update"] = false :=
  (c1_command_failure_fatal_except_dissite sys0 cfg0).1 (by decide)
    ["sudo", "apt", "update"] (by decide) (by decide)

/-- C3 (amended): a run in which no external command fails succeeds, and its
command trace is exactly the documented per-step command lists concatenated
in the fixed step order — prerequisites, clone, virtual environment,
background service, Apache reverse proxy, SSL — where the clone,
virtual-environment and Apache lists vary with the pre-existing filesystem
state (base directory, target directory, `requirements.txt`,
`000-default.conf`).  The trace is therefore not literally identical across
all successful runs. -/
theorem c3_success_trace_is_documented (sys : Sys) (cfg : Config)
    (hf : ∀ c, sys.fails c = false) :
    (runMain sys cfg).2 = 0
  ∧ cmdsOf (runMain sys cfg).1 = specCommands sys cfg := by
  obtain ⟨hb1, hc1⟩ := aux_prereq_hf sys cfg hf
  obtain ⟨hb2, hc2⟩ := aux_clone_hf sys cfg hf
  obtain ⟨hb3, hc3⟩ := aux_venv_hf sys cfg hf
  obtain ⟨hb4, hc4⟩ := aux_service_hf sys cfg hf
  obtain ⟨hb5, hc5⟩ := aux_apache_hf sys cfg hf
  obtain ⟨hb6, hc6⟩ := aux_ssl_hf sys cfg hf
  have hmain := aux_runMain_success (Prod.ext rfl hb1) (Prod.ext rfl hb2)
    (Prod.ext rfl hb3) (Prod.ext rfl hb4) (Prod.ext rfl hb5) (Prod.ext rfl hb6)
  rw [hmain]
  refine ⟨rfl, ?_⟩
  simp only [aux_cmdsOf_append]
  rw [hc1, hc2, hc3, hc4, hc5, hc6]
  simp [mainPre, midLogs, endLogs, aux_cmdsOf_append, aux_cmdsOf_log, cmdsOf, specCommands]

/-- Counterexample to C3 as stated: two runs that both succeed (exit 0) but
issue different command sequences — in the world where no path exists, 24
commands including `mkdir`; in the world where every path exists, 26
commands including `rm -rf` and the `mv` of the default site — so the
command trace is not the same for every successful run. -/
theorem c3_counterexample :
    (runMain sys0 cfg0).2 = 0 ∧ (runMain sysAll cfg0).2 = 0
  ∧ cmdsOf (runMain sys0 cfg0).1 ≠ cmdsOf (runMain sysAll cfg0).1 := by
  refine ⟨by decide, by decide, by decide⟩

/-- Witness for C3 (amended) in the all-succeeding, no-path world. -/
theorem c3_witness :
    (runMain sys0 cfg0).2 = 0
  ∧ cmdsOf (runMain sys0 cfg0).1 = specCommands sys0 cfg0 :=
  c3_success_trace_is_documented sys0 cfg0 (fun _ => rfl)

theorem aux_runBodyExn_some_inv {sys : Sys} {exn : ExnOracle} :
    ∀ {l evs : List Event} {e : StepExn},
      runBodyExn sys exn l = (evs, some e) →
        (∃ a, e = StepExn.calledProcessError a ∧ sys.fails a = true)
      ∨ (∃ m, e = StepExn.other m ∧ ∃ ev, exn.opRaises ev = some m) := by
  intro l
  induction l with
  | nil => intro evs e h; simp [runBodyExn] at h
  | cons ev rest ih =>
    intro evs e h
    rcases hr : runBodyExn sys exn rest with ⟨evs', r⟩
    cases ev with
    | cmd a =>
      simp only [runBodyExn, hr] at h
      cases hfa : sys.fails a with
      | true =>
        rw [hfa] at h
        simp only [if_true, Prod.mk.injEq] at h
        obtain ⟨_, hx⟩ := h
        cases hx
        exact Or.inl ⟨a, rfl, hfa⟩
      | false =>
        rw [hfa] at h
        simp only [Bool.false_eq_true, if_false, Prod.mk.injEq] at h
        exact ih (by rw [hr, h.2])
    | log lv m =>
      simp only [runBodyExn, hr, Prod.mk.injEq] at h
      exact ih (by rw [hr, h.2])
    | write p c =>
      cases hop : exn.opRaises (Event.write p c) with
      | some m =>
        simp only [runBodyExn, hop, Prod.mk.injEq] at h
        obtain ⟨_, hx⟩ := h
        cases hx
        exact Or.inr ⟨m, rfl, Event.write p c, hop⟩
      | none =>
        simp only [runBodyExn, hop, hr, Prod.mk.injEq] at h
        exact ih (by rw [hr, h.2])
    | printOut s =>
      simp only [runBodyExn, hr, Prod.mk.injEq] at h
      exact ih (by rw [hr, h.2])
    | fsop o arg =>
      cases hop : exn.opRaises (Event.fsop o arg) with
      | some m =>
        simp only [runBodyExn, hop, Prod.mk.injEq] at h
        obtain ⟨_, hx⟩ := h
        cases hx
        exact Or.inr ⟨m, rfl, Event.fsop o arg, hop⟩
      | none =>
        simp only [runBodyExn, hop, hr, Prod.mk.injEq] at h
        exact ih (by rw [hr, h.2])

theorem aux_runStepExn_false_inv {sys : Sys} {exn : ExnOracle} {body : List Event}
    {cpePre genPre : String} {evs : List Event}
    (h : runStepExn sys exn body cpePre genPre = (evs, false)) :
    ∃ e, evs.getLast? = some (Event.log logging_ERROR (exnMsg cpePre genPre e))
      ∧ ((∃ a, e = StepExn.calledProcessError a ∧ sys.fails a = true)
        ∨ (∃ m, e = StepExn.other m ∧ ∃ ev, exn.opRaises ev = some m)) := by
  rcases hb : runBodyExn sys exn body with ⟨evs', r⟩
  cases r with
  | none => simp [runStepExn, hb] at h
  | some e =>
    simp only [runStepExn, hb, Prod.mk.injEq] at h
    refine ⟨e, ?_, aux_runBodyExn_some_inv hb⟩
    rw [← h.1, aux_log_message_error, List.getLast?_concat]

theorem aux_apacheExn_false_inv {sys : Sys} {exn : ExnOracle} {cfg : Config}
    {evs : List Event}
    (h : setup_apache_reverse_proxy_exn sys exn cfg = (evs, false)) :
    ∃ e, evs.getLast? = some (Event.log logging_ERROR
        (exnMsg "Failed to set up Apache2 reverse proxy: "
          "Unexpected error while setting up Apache2 reverse proxy: " e))
      ∧ ((∃ a, e = StepExn.calledProcessError a ∧ sys.fails a = true)
        ∨ (∃ m, e = StepExn.other m ∧ ∃ ev, exn.opRaises ev = some m)) := by
  rcases h1 : runBodyExn sys exn (apache_body1 sys cfg) with ⟨evs1, r1⟩
  cases r1 with
  | some e =>
    simp only [setup_apache_reverse_proxy_exn, h1, Prod.mk.injEq] at h
    refine ⟨e, ?_, aux_runBodyExn_some_inv h1⟩
    rw [← h.1, aux_log_message_error, List.getLast?_concat]
  | none =>
    rcases h2 : runBodyExn sys exn (apache_body2 cfg) with ⟨evs2, r2⟩
    cases r2 with
    | none => simp [setup_apache_reverse_proxy_exn, h1, h2] at h
    | some e =>
      simp only [setup_apache_reverse_proxy_exn, h1, h2, Prod.mk.injEq] at h
      refine ⟨e, ?_, aux_runBodyExn_some_inv h2⟩
      rw [← h.1, aux_log_message_error, List.getLast?_concat]

theorem aux_runBodyExn_no_raise (sys : Sys) {exn : ExnOracle}
    (hr : ∀ ev, exn.opRaises ev = none) :
    ∀ l : List Event, runBodyExn sys exn l =
      ((runBody sys.fails l).1,
        (runBody sys.fails l).2.map StepExn.calledProcessError) := by
  intro l
  induction l with
  | nil => rfl
  | cons e rest ih =>
    cases e with
    | cmd a =>
      cases hfa : sys.fails a with
      | true => simp [runBodyExn, runBody, hfa]
      | false => simp [runBodyExn, runBody, hfa, ih]
    | log lv m => simp [runBodyExn, runBody, ih]
    | write p c => simp [runBodyExn, runBody, hr, ih]
    | printOut s => simp [runBodyExn, runBody, ih]
    | fsop o arg => simp [runBodyExn, runBody, hr, ih]

theorem aux_runStepExn_no_raise {sys : Sys} {exn : ExnOracle} {body : List Event}
    {cpePre genPre : String} (hr : ∀ ev, exn.opRaises ev = none) :
    runStepExn sys exn body cpePre genPre =
      runStep sys.fails body (fun a => cpePre ++ cpe_str a) := by
  have hx := aux_runBodyExn_no_raise sys hr body
  rcases hb : runBody sys.fails body with ⟨evs, r⟩
  rw [hb] at hx
  cases r with
  | none => simp [runStepExn, runStep, hb, hx]
  | some a => simp [runStepExn, runStep, hb, hx, exnMsg]

theorem aux_exn_model_conservative (sys : Sys) (exn : ExnOracle) (cfg : Config)
    (hr : ∀ ev, exn.opRaises ev = none) :
    install_prerequisites_exn sys exn cfg = install_prerequisites sys cfg
  ∧ clone_repository_exn sys exn cfg = clone_repository sys cfg
  ∧ setup_virtual_environment_exn sys exn cfg = setup_virtual_environment sys cfg
  ∧ setup_background_service_exn sys exn cfg = setup_background_service sys cfg
  ∧ setup_apache_reverse_proxy_exn sys exn cfg = setup_apache_reverse_proxy sys cfg
  ∧ setup_ssl_certificates_exn sys exn cfg = setup_ssl_certificates sys cfg := by
  refine ⟨?_, ?_, ?_, ?_, ?_, ?_⟩
  · simp only [install_prerequisites_exn, install_prerequisites]
    exact aux_runStepExn_no_raise hr
  · simp only [clone_repository_exn, clone_repository]
    exact aux_runStepExn_no_raise hr
  · simp only [setup_virtual_environment_exn, setup_virtual_environment]
    exact aux_runStepExn_no_raise hr
  · simp only [setup_background_service_exn, setup_background_service]
    exact aux_runStepExn_no_raise hr
  · have hx1 := aux_runBodyExn_no_raise sys hr (apache_body1 sys cfg)
    have hx2 := aux_runBodyExn_no_raise sys hr (apache_body2 cfg)
    rcases h1 : runBody sys.fails (apache_body1 sys cfg) with ⟨evs1, r1⟩
    rcases h2 : runBody sys.fails (apache_body2 cfg) with ⟨evs2, r2⟩
    rw [h1] at hx1
    rw [h2] at hx2
    cases r1 with
    | some a =>
      simp [setup_apache_reverse_proxy_exn, setup_apache_reverse_proxy,
        h1, hx1, exnMsg, apacheFailMsg]
    | none =>
      cases r2 with
      | some a =>
        simp [setup_apache_reverse_proxy_exn, setup_apache_reverse_proxy,
          h1, h2, hx1, hx2, exnMsg, apacheFailMsg]
      | none =>
        simp [setup_apache_reverse_proxy_exn, setup_apache_reverse_proxy,
          h1, h2, hx1, hx2]
  · simp only [setup_ssl_certificates_exn, setup_ssl_certificates]
    exact aux_runStepExn_no_raise hr

/-- C7: every step function returns a boolean and never propagates an
exception, with both of the source's exception sources modelled: whenever a
step returns `False`, its last event is the ERROR log of one of the two
`except` tiers — either the specific tier's message built from the
`CalledProcessError` of a failing invoked command, or the generic tier's
message built from the `str(e)` of an exception raised by a file or
filesystem operation — and in both cases only this `False` flag reaches the
caller; a step that raises nothing returns `true`. -/
theorem c7_two_tier_catch (sys : Sys) (exn : ExnOracle) (cfg : Config) :
    ∀ p, p ∈ stepFunsExn →
      ((p.2.2 sys exn cfg).2 = true ∨ (p.2.2 sys exn cfg).2 = false)
    ∧ ((p.2.2 sys exn cfg).2 = false →
        (∃ a, sys.fails a = true ∧
          ((p.2.2 sys exn cfg).1).getLast? =
            some (Event.log logging_ERROR (p.1 ++ cpe_str a)))
      ∨ (∃ m, (∃ ev, exn.opRaises ev = some m) ∧
          ((p.2.2 sys exn cfg).1).getLast? =
            some (Event.log logging_ERROR (p.2.1 ++ m)))) := by
  intro p hp
  have hdi : ∀ q : String × String × (Sys → ExnOracle → Config → List Event × Bool),
      ((q.2.2 sys exn cfg).2 = true ∨ (q.2.2 sys exn cfg).2 = false) := by
    intro q
    cases hb : (q.2.2 sys exn cfg).2
    · exact Or.inr rfl
    · exact Or.inl rfl
  have hsplit : ∀ (e : StepExn) (cpePre genPre : String) (l : List Event),
      l.getLast? = some (Event.log logging_ERROR (exnMsg cpePre genPre e)) →
      ((∃ a, e = StepExn.calledProcessError a ∧ sys.fails a = true)
        ∨ (∃ m, e = StepExn.other m ∧ ∃ ev, exn.opRaises ev = some m)) →
      (∃ a, sys.fails a = true ∧
        l.getLast? = some (Event.log logging_ERROR (cpePre ++ cpe_str a)))
      ∨ (∃ m, (∃ ev, exn.opRaises ev = some m) ∧
        l.getLast? = some (Event.log logging_ERROR (genPre ++ m))) := by
    intro e cpePre genPre l hlast horig
    rcases horig with ⟨a, he, hfa⟩ | ⟨m, he, hev⟩
    · subst he
      exact Or.inl ⟨a, hfa, by simpa [exnMsg] using hlast⟩
    · subst he
      exact Or.inr ⟨m, hev, by simpa [exnMsg] using hlast⟩
  simp only [stepFunsExn, List.mem_cons, List.not_mem_nil, or_false] at hp
  rcases hp with rfl | rfl | rfl | rfl | rfl | rfl
  · refine ⟨hdi _, ?_⟩
    dsimp only
    intro hfalse
    rcases hst : install_prerequisites_exn sys exn cfg with ⟨evs, b⟩
    rw [hst] at hfalse
    cases b
    · obtain ⟨e, hlast, horig⟩ := aux_runStepExn_false_inv hst
      exact hsplit e _ _ evs hlast horig
    · cases hfalse
  · refine ⟨hdi _, ?_⟩
    dsimp only
    intro hfalse
    rcases hst : clone_repository_exn sys exn cfg with ⟨evs, b⟩
    rw [hst] at hfalse
    cases b
    · obtain ⟨e, hlast, horig⟩ := aux_runStepExn_false_inv hst
      exact hsplit e _ _ evs hlast horig
    · cases hfalse
  · refine ⟨hdi _, ?_⟩
    dsimp only
    intro hfalse
    rcases hst : setup_virtual_environment_exn sys exn cfg with ⟨evs, b⟩
    rw [hst] at hfalse
    cases b
    · obtain ⟨e, hlast, horig⟩ := aux_runStepExn_false_inv hst
      exact hsplit e _ _ evs hlast horig
    · cases hfalse
  · refine ⟨hdi _, ?_⟩
    dsimp only
    intro hfalse
    rcases hst : setup_background_service_exn sys exn cfg with ⟨evs, b⟩
    rw [hst] at hfalse
    cases b
    · obtain ⟨e, hlast, horig⟩ := aux_runStepExn_false_inv hst
      exact hsplit e _ _ evs hlast horig
    · cases hfalse
  · refine ⟨hdi _, ?_⟩
    dsimp only
    intro hfalse
    rcases hst : setup_apache_reverse_proxy_exn sys exn cfg with ⟨evs, b⟩
    rw [hst] at hfalse
    cases b
    · obtain ⟨e, hlast, horig⟩ := aux_apacheExn_false_inv hst
      exact hsplit e _ _ evs hlast horig
    · cases hfalse
  · refine ⟨hdi _, ?_⟩
    dsimp only
    intro hfalse
    rcases hst : setup_ssl_certificates_exn sys exn cfg with ⟨evs, b⟩
    rw [hst] at hfalse
    cases b
    · obtain ⟨e, hlast, horig⟩ := aux_runStepExn_false_inv hst
      exact hsplit e _ _ evs hlast horig
    · cases hfalse

/-- Witness for C7, exercising both `except` tiers: in the all-failing
command world the first step fails through the `CalledProcessError` tier,
and in the world where the systemd unit-file write raises the service step
fails through the generic tier. -/
theorem c7_witness :
    ((∃ a, sysF.fails a = true ∧
        ((install_prerequisites_exn sysF exn0 cfg0).1).getLast? =
          some (Event.log logging_ERROR
            ("Failed to install Python dependencies: " ++ cpe_str a)))
     ∨ (∃ m, (∃ ev, exn0.opRaises ev = some m) ∧
        ((install_prerequisites_exn sysF exn0 cfg0).1).getLast? =
          some (Event.log logging_ERROR
            ("Unexpected error while installing Python dependencies: " ++ m))))
  ∧ ((∃ a, sys0.fails a = true ∧
        ((setup_background_service_exn sys0 exnW cfg0).1).getLast? =
          some (Event.log logging_ERROR
            ("Failed to set up Tooltrack service: " ++ cpe_str a)))
     ∨ (∃ m, (∃ ev, exnW.opRaises ev = some m) ∧
        ((setup_background_service_exn sys0 exnW cfg0).1).getLast? =
          some (Event.log logging_ERROR
            ("Unexpected error while setting up Tooltrack service: " ++ m)))) :=
  ⟨(c7_two_tier_catch sysF exn0 cfg0
      ("Failed to install Python dependencies: ",
       "Unexpected error while installing Python dependencies: ",
       install_prerequisites_exn)
      (by simp [stepFunsExn])).2 (by decide),
   (c7_two_tier_catch sys0 exnW cfg0
      ("Failed to set up Tooltrack service: ",
       "Unexpected error while setting up Tooltrack service: ",
       setup_background_service_exn)
      (by simp [stepFunsExn])).2 (by decide)⟩
